import Mathlib

/-!
Verification of the decoder supervision and pipeline orchestration subsystem
of the ras-enc repository (src/app.py) against its natural-language
specification.  Python numeric code is embedded over ℕ/ℤ/ℚ/ℝ: every float
expression modelled here is exact in IEEE double precision on the inputs the
theorems quantify over, so the rational/real model agrees with the running
code bit-for-bit on those inputs.
-/

namespace RasEnc

/-! ## Supervisor backoff (src/app.py, `_decoder_supervisor_loop`, lines 299-317) -/

/-- Backoff update performed on a failed relaunch attempt (line 306):
`backoff = min(backoff * 1.5, max_backoff)` with `max_backoff = 10.0`.
The factor 1.5 and cap 10.0 are exact binary doubles and all reachable
values stay exact, so the update is modelled over ℚ. -/
def backoff_after_failure (b : ℚ) : ℚ := min (b * (3 / 2)) 10

/-- Supervisor retry bookkeeping carried across loop iterations
(lines 240-241): current backoff seconds and the consecutive-failure count. -/
structure SupervisorState where
  backoff : ℚ
  consecutiveFailures : ℕ
deriving DecidableEq

/-- Failure branch of the supervisor loop (lines 303-307): increment the
failure count, update the backoff, then sleep the updated backoff.  Returns
the new state and the number of seconds slept. -/
def supervisor_on_failure (s : SupervisorState) : SupervisorState × ℚ :=
  let b := backoff_after_failure s.backoff
  (⟨b, s.consecutiveFailures + 1⟩, b)

/-- Success branch of the supervisor loop (lines 299-302): reset the failure
count and the backoff to 1.0. -/
def supervisor_on_success (_s : SupervisorState) : SupervisorState :=
  ⟨1, 0⟩

/-- Backoff value after the k-th consecutive failed relaunch, starting from
the initial backoff 1.0 (line 240); by lines 305-307 this is also the
duration slept for failure k (for k ≥ 1). -/
def failure_sleep : ℕ → ℚ
  | 0 => 1
  | k + 1 => backoff_after_failure (failure_sleep k)

/-! ## VLC native volume (src/app.py, `_start_vlc_player` line 357 and
`api_decoder_start` line 1399) -/

/-- Native VLC volume: `vlc_volume = int(volume * 2.56)`.  Python truncates
the double product toward zero; for every volume in [0,100] the double
rounding error never crosses an integer boundary, so the result equals the
floor of the exact rational volume * 64/25, i.e. Nat division. -/
def vlc_volume (volume : ℕ) : ℕ := volume * 64 / 25

/-- Native volume as the specification words it: `round(volume*2.56)`,
rounding to the nearest integer over exact rationals. -/
def vlc_volume_spec (volume : ℕ) : ℤ := round ((volume : ℚ) * 64 / 25)

/-! ## mpg123 pipe buffer (src/app.py, `_start_decoder_process` lines 170-173
and `api_decoder_start` lines 1334-1337) -/

/-- Byte budget handed to mpg123 with the -b flag on the stdin-pipe paths:
`buffer_secs * 44100 * 2 * 2` clamped by
`max(4096, min(1048576, ...))` (identical at both call sites). -/
def mpg123_buffer_bytes (buffer_secs : ℕ) : ℕ :=
  max 4096 (min 1048576 (buffer_secs * 44100 * 2 * 2))

/-- Clamp as the specification words it: `clamp(x, lo, hi)`. -/
def clampSpec (x lo hi : ℕ) : ℕ := min hi (max lo x)

/-! ## Claim theorems C1, C3, C4 -/

/-- C1 counterexample: the claim asserts the sleep for the first failure is
exactly 1.0 seconds, but the code updates the backoff before sleeping
(lines 306-307), so the very first failed relaunch already sleeps
min(1.0 * 1.5, 10.0) = 1.5 seconds. -/
theorem first_failure_sleep_is_not_one :
    (supervisor_on_failure ⟨1, 0⟩).2 = 3 / 2 ∧ ((3 : ℚ) / 2) ≠ 1 := by
  constructor
  · simp [supervisor_on_failure, backoff_after_failure]
    norm_num
  · norm_num

/-- C1 (corrected): every failed relaunch increments consecutiveFailures and
updates backoff to min(backoff*1.5, 10.0), then sleeps the updated value;
starting from backoff = 1.0 the sleeps for consecutive failures 1..7 are
exactly 1.5, 2.25, 3.375, 5.0625, 7.59375, 10.0, 10.0 seconds (not
1.0, 1.5, 2.25, ... as claimed), and a successful relaunch resets the
backoff to 1.0 and the failure count to 0. -/
theorem supervisor_backoff_behaviour :
    ((List.range 7).map fun k => failure_sleep (k + 1)) =
      [3 / 2, 9 / 4, 27 / 8, 81 / 16, 243 / 32, 10, 10] ∧
    (∀ s : SupervisorState,
      (supervisor_on_failure s).1.backoff = min (s.backoff * (3 / 2)) 10 ∧
      (supervisor_on_failure s).1.consecutiveFailures = s.consecutiveFailures + 1 ∧
      (supervisor_on_failure s).2 = (supervisor_on_failure s).1.backoff) ∧
    (∀ s : SupervisorState, supervisor_on_success s = ⟨1, 0⟩) ∧
    (∀ k : ℕ, failure_sleep (k + 1) = (supervisor_on_failure ⟨failure_sleep k, k⟩).2) := by
  refine ⟨?_, fun s => ⟨rfl, rfl, rfl⟩, fun s => rfl, fun k => rfl⟩
  norm_num [List.range_succ, failure_sleep, backoff_after_failure, min_def]

/-- C3 counterexample: at volume = 1 the code passes int(1 * 2.56) = 2 to
VLC, while round(1 * 2.56) = 3, so the native volume is not
round(volume * 2.56). -/
theorem vlc_volume_one_differs_from_round :
    vlc_volume 1 = 2 ∧ vlc_volume_spec 1 = 3 ∧ ((2 : ℤ) ≠ 3) := by
  refine ⟨rfl, ?_, by decide⟩
  unfold vlc_volume_spec
  norm_num [round_eq]

/-- C3 (corrected): for every volume in [0,100] the native volume passed to
VLC equals the truncation (floor) of volume * 2.56, not its rounding, and it
lies in [0,256]. -/
theorem vlc_volume_floor_and_range (volume : ℕ) (h : volume ≤ 100) :
    vlc_volume volume = ⌊(volume : ℚ) * 64 / 25⌋₊ ∧ vlc_volume volume ≤ 256 := by
  constructor
  · have h1 : (volume : ℚ) * 64 / 25 = ((volume * 64 : ℕ) : ℚ) / ((25 : ℕ) : ℚ) := by
      push_cast
      ring
    rw [h1, Nat.floor_div_nat]
    rfl
  · calc vlc_volume volume = volume * 64 / 25 := rfl
      _ ≤ 100 * 64 / 25 := Nat.div_le_div_right (Nat.mul_le_mul_right 64 h)
      _ = 256 := by norm_num

/-- Witness for the corrected C3 theorem at volume = 40. -/
theorem vlc_volume_floor_and_range_at_40 :
    (40 : ℕ) ≤ 100 ∧ (vlc_volume 40 = ⌊(40 : ℚ) * 64 / 25⌋₊ ∧ vlc_volume 40 ≤ 256) :=
  ⟨by norm_num, vlc_volume_floor_and_range 40 (by norm_num)⟩

/-- C4 (confirmed): for every bufferSecs in [1,60], the mpg123 byte budget of
the direct MP3 decoder equals clamp(bufferSecs * 176400, 4096, 1048576). -/
theorem mpg123_buffer_matches_clamp (buffer_secs : ℕ)
    (h1 : 1 ≤ buffer_secs) (h2 : buffer_secs ≤ 60) :
    mpg123_buffer_bytes buffer_secs = clampSpec (buffer_secs * 176400) 4096 1048576 := by
  unfold mpg123_buffer_bytes clampSpec
  have hx : buffer_secs * 44100 * 2 * 2 = buffer_secs * 176400 := by ring
  rw [hx]
  omega

/-- Witness for the C4 theorem at bufferSecs = 30. -/
theorem mpg123_buffer_matches_clamp_at_30 :
    (1 : ℕ) ≤ 30 ∧ (30 : ℕ) ≤ 60 ∧
      mpg123_buffer_bytes 30 = clampSpec (30 * 176400) 4096 1048576 :=
  ⟨by norm_num, by norm_num, mpg123_buffer_matches_clamp 30 (by norm_num) (by norm_num)⟩

/-! ## Level meter (src/app.py, `read_audio_levels` lines 736-755) -/

/-- Left-channel magnitude samples: absolute values of the samples at even
indices of the interleaved chunk (line 742). -/
def left_samples : List ℤ → List ℤ
  | [] => []
  | [x] => [|x|]
  | x :: _ :: rest => |x| :: left_samples rest

/-- Right-channel magnitude samples: absolute values of the samples at odd
indices of the interleaved chunk (line 743). -/
def right_samples : List ℤ → List ℤ
  | [] => []
  | [_] => []
  | _ :: y :: rest => |y| :: right_samples rest

/-- Sum of squared samples, the numerator of the per-channel mean square
(lines 746 and 752). -/
def sum_sq (xs : List ℤ) : ℤ := (xs.map fun x => x * x).sum

/-- Per-channel normalized clamped level (lines 745-755):
`min(sqrt(sum(x*x)/len) / 32768.0, 1.0)` when the channel is nonempty,
0.0 otherwise.  All quantities appearing in the claims are exact doubles,
so the real-valued model agrees with the float code there. -/
noncomputable def channel_level (xs : List ℤ) : ℝ :=
  if xs = [] then 0
  else min (Real.sqrt ((sum_sq xs : ℝ) / xs.length) / 32768) 1

/-- Level pair the meter publishes for one decoded chunk. -/
noncomputable def meter_levels (chunk : List ℤ) : ℝ × ℝ :=
  (channel_level (left_samples chunk), channel_level (right_samples chunk))

/-- Mean square of a channel whose samples all have magnitude m is m². -/
theorem channel_level_const_abs (xs : List ℤ) (m : ℕ) (hne : xs ≠ [])
    (hall : ∀ x ∈ xs, x * x = (m : ℤ) * m) (hm : (m : ℝ) ≤ 32768) :
    channel_level xs = (m : ℝ) / 32768 := by
  have haux : ∀ t : List ℤ, (t.map fun _ => (m : ℤ) * m).sum = t.length * ((m : ℤ) * m) := by
    intro t
    induction t with
    | nil => simp
    | cons a t ih =>
      simp only [List.map_cons, List.sum_cons, List.length_cons, ih]
      push_cast
      ring
  have hsum : sum_sq xs = xs.length * ((m : ℤ) * m) := by
    unfold sum_sq
    rw [List.map_congr_left hall]
    exact haux xs
  have hlen : (0 : ℝ) < xs.length := by
    have : xs.length ≠ 0 := by
      simpa [List.length_eq_zero] using hne
    positivity
  unfold channel_level
  rw [if_neg hne]
  have hmean : (sum_sq xs : ℝ) / xs.length = (m : ℝ) ^ 2 := by
    rw [hsum]
    push_cast
    field_simp
    ring
  rw [hmean, Real.sqrt_sq (by positivity)]
  have hle : (m : ℝ) / 32768 ≤ 1 := by
    rw [div_le_one (by norm_num)]
    exact hm
  exact min_eq_left hle

/-- C5 (confirmed): on an all-zero chunk the meter reports left = right = 0;
on a full-scale alternating ±32767 square wave both channels report exactly
32767/32768 ≈ 0.99997 (within 10⁻⁵ of the quoted value); and for every chunk
the published level is clamped to at most 1. -/
theorem meter_levels_rms_properties :
    meter_levels (List.replicate 8 0) = (0, 0) ∧
    meter_levels [32767, -32767, 32767, -32767] = (32767 / 32768, 32767 / 32768) ∧
    |(32767 / 32768 : ℝ) - 0.99997| < 1 / 10 ^ 5 ∧
    (∀ chunk : List ℤ, (meter_levels chunk).1 ≤ 1 ∧ (meter_levels chunk).2 ≤ 1) := by
  have hclamp : ∀ xs : List ℤ, channel_level xs ≤ 1 := by
    intro xs
    unfold channel_level
    by_cases h : xs = []
    · simp [h]
    · rw [if_neg h]
      exact min_le_right _ _
  refine ⟨?_, ?_, by rw [abs_sub_lt_iff]; constructor <;> norm_num,
    fun chunk => ⟨hclamp _, hclamp _⟩⟩
  · have hzero : ∀ xs : List ℤ, xs ≠ [] → (∀ x ∈ xs, x = 0) → channel_level xs = 0 := by
      intro xs hne hall
      have := channel_level_const_abs xs 0 hne
        (fun x hx => by rw [hall x hx]; norm_num) (by norm_num)
      simpa using this
    have hlz : ∀ x ∈ left_samples [(0 : ℤ), 0, 0, 0, 0, 0, 0, 0], x = 0 := by decide
    have hrz : ∀ x ∈ right_samples [(0 : ℤ), 0, 0, 0, 0, 0, 0, 0], x = 0 := by decide
    unfold meter_levels
    rw [show List.replicate 8 (0 : ℤ) = [0, 0, 0, 0, 0, 0, 0, 0] from rfl]
    rw [hzero _ (by decide) hlz, hzero _ (by decide) hrz]
  · have hl : left_samples [(32767 : ℤ), -32767, 32767, -32767] = [32767, 32767] := by decide
    have hr : right_samples [(32767 : ℤ), -32767, 32767, -32767] = [32767, 32767] := by decide
    have hconst : ∀ x ∈ [(32767 : ℤ), 32767], x * x = ((32767 : ℕ) : ℤ) * (32767 : ℕ) := by
      decide
    unfold meter_levels
    rw [hl, hr, channel_level_const_abs _ 32767 (by decide) hconst (by norm_num)]
    norm_num

/-! ## Decoder status report (src/app.py, `get_decoder_status` lines 76-146
and `api_status` lines 983-992) -/

/-- Snapshot of everything `get_decoder_status` can observe besides the
supervision flag: the tracked process handles (Option = handle present,
Bool = poll() is None) and the zombie-filtered pgrep sweeps used as
fallback. -/
structure ProcView where
  trackedDecoderAlive : Option Bool
  trackedAplayAlive : Option Bool
  ffmpegAndAplayHealthy : Bool
  mpg123AndAplayHealthy : Bool
  cvlcHealthy : Bool

/-- Fallthrough body of `get_decoder_status` (lines 81-146): a live tracked
decoder answers via its aplay leg; otherwise the pgrep sweeps decide. -/
def decoder_process_probe (v : ProcView) : Bool :=
  match v.trackedDecoderAlive with
  | some true =>
    match v.trackedAplayAlive with
    | some alive => alive
    | none => true
  | _ => v.ffmpegAndAplayHealthy || v.mpg123AndAplayHealthy || v.cvlcHealthy

/-- Full `get_decoder_status` (lines 76-146): when `decoder_should_run` is
set it returns True immediately, before any process is inspected. -/
def get_decoder_status (decoder_should_run : Bool) (v : ProcView) : Bool :=
  if decoder_should_run then true else decoder_process_probe v

/-- Decoder field of the `/api/status` response (line 988). -/
def api_status_decoder (decoder_should_run : Bool) (v : ProcView) : Bool :=
  get_decoder_status decoder_should_run v

/-- C9 (confirmed): whenever decoder_should_run is true, get_decoder_status
returns true and the status endpoint reports the decoder as running, for
every process view — including the view in which every tracked handle and
every swept process is dead (failure backoff with no pipeline). -/
theorem status_true_whenever_should_run :
    (∀ v : ProcView, get_decoder_status true v = true) ∧
    (∀ v : ProcView, api_status_decoder true v = true) ∧
    get_decoder_status true ⟨some false, some false, false, false, false⟩ = true := by
  exact ⟨fun v => rfl, fun v => rfl, rfl⟩

/-! ## Fixed volume on the launch paths (src/app.py, lines 249-250,
1089-1091, and the sox gain stage of `_start_decoder_process` lines 163-201) -/

/-- Volume the supervisor loop passes to every launcher (line 250):
the literal 100, "Always maximum volume". -/
def supervisor_volume : ℕ := 100

/-- Volume fixed by the start endpoint before launching (lines 1091, 1171,
1186): the literal 100, "no user control". -/
def api_start_volume : ℕ := 100

/-- Guard for inserting the sox gain stage between mpg123 and aplay
(line 182): the sox binary exists and volume/100 < 1.0. -/
def sox_gain_inserted (sox_available : Bool) (volume : ℕ) : Bool :=
  sox_available && decide ((volume : ℚ) / 100 < 1)

/-- C10 (confirmed): both launch-initiating paths pass volume = 100, at
volume 100 the sox gain stage is never inserted regardless of sox being
installed, and VLC receives int(100 * 2.56) = 256, the maximum native
volume. -/
theorem launch_paths_use_full_volume :
    supervisor_volume = 100 ∧ api_start_volume = 100 ∧
    (∀ sox_available : Bool, sox_gain_inserted sox_available supervisor_volume = false) ∧
    (∀ sox_available : Bool, sox_gain_inserted sox_available api_start_volume = false) ∧
    vlc_volume supervisor_volume = 256 ∧ vlc_volume api_start_volume = 256 := by
  refine ⟨rfl, rfl, ?_, ?_, rfl, rfl⟩ <;>
    · intro sox_available
      simp [sox_gain_inserted, supervisor_volume, api_start_volume]

/-! ## Backend launch chains (src/app.py, `_decoder_supervisor_loop`
lines 291-297 and `api_decoder_start` lines 1260-1441) -/

/-- Backends the supervisor relaunch chain can pick. -/
inductive Backend
  | vlc
  | ffmpegPipeline
  | mpg123
deriving DecidableEq

/-- Which launcher invocations would succeed in the current environment. -/
structure LaunchEnv where
  vlcOk : Bool
  ffmpegOk : Bool
  mpg123Ok : Bool

/-- Supervisor relaunch chain (lines 291-297): try `_start_vlc_player`,
elif `_start_ffmpeg_pipeline`, elif `_start_decoder_process`; the elif
chain stops at the first launcher that returns True. -/
def supervisor_try_launch (e : LaunchEnv) : Option Backend :=
  if e.vlcOk then some .vlc
  else if e.ffmpegOk then some .ffmpegPipeline
  else if e.mpg123Ok then some .mpg123
  else none

/-- Launch attempts the start endpoint can make, in source order. -/
inductive ApiBackend
  | vlcMain
  | mpg123DirectAlsa
  | mpg123Pipe
  | vlcFallback
  | ffmpegFallback
  | cvlcSimple
  | mpg123Pulse
deriving DecidableEq

/-- Which of the start-endpoint launch attempts would succeed. -/
structure ApiLaunchEnv where
  vlcOk : Bool
  mpg123DirectOk : Bool
  mpg123PipeOk : Bool
  vlcFallbackOk : Bool
  ffmpegOk : Bool
  cvlcSimpleOk : Bool
  pulseOk : Bool

/-- Outcome of the start-endpoint launch phase: the attempts made in order,
the backend the tracked handle finally points at, and whether the endpoint
returned the VLC-missing error response. -/
structure ApiLaunchResult where
  attempts : List ApiBackend
  tracked : Option ApiBackend
  errorReturned : Bool
deriving DecidableEq

/-- Launch phase of `api_decoder_start` (lines 1260-1441), control flow
transcribed from the source indentation: the block starting at line 1279
(mpg123 direct ALSA and all its fallbacks) sits inside the
`if decoder_process is None:` body of line 1262 at the same indentation as
the VLC attempt, so it runs after `_start_vlc_player` SUCCEEDS; VLC failure
returns the 500 error at line 1269 instead.  Each later attempt overwrites
`decoder_process`, orphaning the still-running VLC process. -/
def api_start_launch (e : ApiLaunchEnv) : ApiLaunchResult :=
  if e.vlcOk then
    if e.mpg123DirectOk then
      ⟨[.vlcMain, .mpg123DirectAlsa], some .mpg123DirectAlsa, false⟩
    else if e.mpg123PipeOk then
      ⟨[.vlcMain, .mpg123DirectAlsa, .mpg123Pipe], some .mpg123Pipe, false⟩
    else if e.vlcFallbackOk then
      ⟨[.vlcMain, .mpg123DirectAlsa, .mpg123Pipe, .vlcFallback], some .vlcFallback, false⟩
    else if e.ffmpegOk then
      ⟨[.vlcMain, .mpg123DirectAlsa, .mpg123Pipe, .vlcFallback, .ffmpegFallback],
        some .ffmpegFallback, false⟩
    else if e.cvlcSimpleOk then
      ⟨[.vlcMain, .mpg123DirectAlsa, .mpg123Pipe, .vlcFallback, .ffmpegFallback, .cvlcSimple],
        some .cvlcSimple, false⟩
    else if e.pulseOk then
      ⟨[.vlcMain, .mpg123DirectAlsa, .mpg123Pipe, .vlcFallback, .ffmpegFallback, .cvlcSimple,
          .mpg123Pulse], some .mpg123Pulse, false⟩
    else
      ⟨[.vlcMain, .mpg123DirectAlsa, .mpg123Pipe, .vlcFallback, .ffmpegFallback, .cvlcSimple,
          .mpg123Pulse], none, false⟩
  else
    ⟨[.vlcMain], none, true⟩

/-- C6 (code_bug): the supervisor chain does stop at the first successful
strategy, but on the start endpoint, in an environment where VLC launches
and stays healthy and mpg123 direct-ALSA also stays healthy, the endpoint
still launches mpg123 after the successful VLC attempt and repoints the
tracked handle at it — a later strategy launched and adopted even though
every earlier strategy succeeded, contradicting the comments at
lines 1274-1276. -/
theorem api_start_launches_after_vlc_success :
    supervisor_try_launch ⟨true, true, true⟩ = some .vlc ∧
    supervisor_try_launch ⟨false, true, true⟩ = some .ffmpegPipeline ∧
    supervisor_try_launch ⟨false, false, true⟩ = some .mpg123 ∧
    (api_start_launch ⟨true, true, true, true, true, true, true⟩).attempts =
      [.vlcMain, .mpg123DirectAlsa] ∧
    (api_start_launch ⟨true, true, true, true, true, true, true⟩).tracked =
      some .mpg123DirectAlsa ∧
    some ApiBackend.mpg123DirectAlsa ≠ some ApiBackend.vlcMain := by
  refine ⟨rfl, rfl, rfl, rfl, rfl, by decide⟩

/-! ## Pump relay loop (src/app.py, `_pump_and_meter` lines 567-595) -/

/-- Result of one write to the aplay stdin (lines 583-595). -/
inductive WriteOutcome
  | ok
  | brokenPipe
  | otherError
deriving DecidableEq

/-- Per-iteration environment of the steady relay loop: the should-run flag,
the poll() results of both processes, whether a nonempty chunk was obtained
(from the cache or the ffmpeg stdout), and the outcome of the write. -/
structure PumpEnv where
  shouldRun : ℕ → Bool
  ffmpegAlive : ℕ → Bool
  aplayAlive : ℕ → Bool
  readData : ℕ → Bool
  write : ℕ → WriteOutcome

/-- Loop guard of line 568: `decoder_should_run and ffmpeg_proc.poll() is
None and aplay_proc.poll() is None`. -/
def pump_guard (e : PumpEnv) (i : ℕ) : Bool :=
  e.shouldRun i && e.ffmpegAlive i && e.aplayAlive i

/-- Observable actions of one pump iteration. -/
inductive PumpAction
  | idle (i : ℕ)
  | relay (i : ℕ)
  | relayBroken (i : ℕ)
  | relayError (i : ℕ)
deriving DecidableEq

/-- Iteration index an action was taken at. -/
def PumpAction.iter : PumpAction → ℕ
  | .idle i => i
  | .relay i => i
  | .relayBroken i => i
  | .relayError i => i

/-- Steady relay loop (lines 568-595), fuel-indexed: re-check the guard every
iteration and exit immediately when it fails; empty reads sleep and retry;
a BrokenPipeError from the write breaks out of the loop; other write errors
sleep and retry. -/
def pump_run (e : PumpEnv) : ℕ → ℕ → List PumpAction
  | 0, _ => []
  | fuel + 1, i =>
    if pump_guard e i then
      if e.readData i then
        match e.write i with
        | .ok => .relay i :: pump_run e fuel (i + 1)
        | .brokenPipe => [.relayBroken i]
        | .otherError => .relayError i :: pump_run e fuel (i + 1)
      else .idle i :: pump_run e fuel (i + 1)
    else []

/-- Every action the pump takes happens at an iteration whose guard passed. -/
theorem pump_run_guard_holds (e : PumpEnv) :
    ∀ (fuel i : ℕ), ∀ a ∈ pump_run e fuel i, pump_guard e a.iter = true := by
  intro fuel
  induction fuel with
  | zero => intro i a ha; simp [pump_run] at ha
  | succ n ih =>
    intro i a ha
    by_cases hg : pump_guard e i
    · rw [pump_run, if_pos hg] at ha
      by_cases hr : e.readData i
      · rw [if_pos hr] at ha
        cases hw : e.write i <;> rw [hw] at ha
        · rcases List.mem_cons.mp ha with h | h
          · subst h; simpa [PumpAction.iter] using hg
          · exact ih (i + 1) a h
        · rcases List.mem_cons.mp ha with h | h
          · subst h; simpa [PumpAction.iter] using hg
          · simp at h
        · rcases List.mem_cons.mp ha with h | h
          · subst h; simpa [PumpAction.iter] using hg
          · exact ih (i + 1) a h
      · rw [if_neg hr] at ha
        rcases List.mem_cons.mp ha with h | h
        · subst h; simpa [PumpAction.iter] using hg
        · exact ih (i + 1) a h
    · rw [pump_run, if_neg hg] at ha
      simp at ha

/-- A broken-pipe relay is always the last action: the pump never relays
again after the downstream pipe breaks. -/
theorem pump_run_broken_pipe_stops (e : PumpEnv) :
    ∀ (fuel i j : ℕ) (l₁ l₂ : List PumpAction),
      pump_run e fuel i = l₁ ++ PumpAction.relayBroken j :: l₂ → l₂ = [] := by
  intro fuel
  induction fuel with
  | zero =>
    intro i j l₁ l₂ h
    rw [pump_run] at h
    exact absurd h (by simp)
  | succ n ih =>
    intro i j l₁ l₂ h
    by_cases hg : pump_guard e i
    · rw [pump_run, if_pos hg] at h
      by_cases hr : e.readData i
      · rw [if_pos hr] at h
        cases hw : e.write i <;> rw [hw] at h
        · rcases l₁ with _ | ⟨a, t⟩
          · simp at h
          · rw [List.cons_append] at h
            exact ih (i + 1) j t l₂ (List.cons.injEq .. ▸ h).2
        · rcases l₁ with _ | ⟨a, t⟩
          · simpa using (List.cons.injEq .. ▸ h).2.symm
          · have := (List.cons.injEq .. ▸ h).2
            exact absurd this.symm (by simp)
        · rcases l₁ with _ | ⟨a, t⟩
          · simp at h
          · rw [List.cons_append] at h
            exact ih (i + 1) j t l₂ (List.cons.injEq .. ▸ h).2
      · rw [if_neg hr] at h
        rcases l₁ with _ | ⟨a, t⟩
        · simp at h
        · rw [List.cons_append] at h
          exact ih (i + 1) j t l₂ (List.cons.injEq .. ▸ h).2
    · rw [pump_run, if_neg hg] at h
      exact absurd h (by simp)

/-- C7 (confirmed): the steady relay loop checks the should-run flag and the
liveness of both processes at every iteration — a failed guard exits
immediately with no further action (in particular no further relays), every
relay happens under a passing guard, and a broken-pipe write is the last
action the pump ever takes. -/
theorem pump_checks_guard_and_stops_on_broken_pipe (e : PumpEnv) (fuel i : ℕ) :
    (pump_guard e i = false → pump_run e (fuel + 1) i = []) ∧
    (∀ a ∈ pump_run e fuel i, pump_guard e a.iter = true) ∧
    (∀ (j : ℕ) (l₁ l₂ : List PumpAction),
      pump_run e fuel i = l₁ ++ PumpAction.relayBroken j :: l₂ → l₂ = []) := by
  refine ⟨fun hg => ?_, pump_run_guard_holds e fuel i, fun j l₁ l₂ h =>
    pump_run_broken_pipe_stops e fuel i j l₁ l₂ h⟩
  rw [pump_run, if_neg (by simp [hg])]

/-- Concrete pump environment in which the flag is cleared from the start
and a broken pipe happens at iteration 1. -/
def pump_env_flag_down : PumpEnv :=
  ⟨fun _ => false, fun _ => true, fun _ => true, fun _ => true, fun _ => .ok⟩

/-- Witness for the C7 theorem: with the should-run flag down the guard fails
and the pump performs no action at all. -/
theorem pump_checks_guard_witness :
    pump_run pump_env_flag_down 6 0 = [] :=
  (pump_checks_guard_and_stops_on_broken_pipe pump_env_flag_down 5 0).1 rfl

/-! ## Start/stop pipeline orchestration (src/app.py, `api_decoder_start`
lines 1087-1112/1162/1226 and `api_decoder_stop` lines 1544-1577) -/

/-- One tracked playback pipeline: the decoder leg and, when the backend
pipes into aplay, the output leg (Bool = poll() is None). -/
structure Pipeline where
  decoderAlive : Bool
  output : Option Bool
deriving DecidableEq

/-- All legs of a pipeline report alive (lines 83-93 applied to the tracked
handles): the decoder leg, and the output leg when present. -/
def pipeline_active (p : Pipeline) : Bool :=
  p.decoderAlive && (match p.output with | some alive => alive | none => true)

/-- Mutable module state the start/stop endpoints operate on:
`decoder_should_run` and the tracked handle pair. -/
structure DecoderState where
  shouldRun : Bool
  tracked : Option Pipeline
deriving DecidableEq

/-- Status probe at tracked-handle level (`get_decoder_status`,
lines 76-93): supervised-to-run, or the tracked pipeline has every leg
alive.  The pgrep fallback of lines 95-144 only sees processes this module
spawned; on the states these endpoints produce the sweep kills have removed
them, so at this abstraction the fallback adds nothing. -/
def status_probe (s : DecoderState) : Bool :=
  s.shouldRun || (match s.tracked with | some p => pipeline_active p | none => false)

/-- Teardown and launch steps of the start endpoint, in execution order. -/
inductive StartAction
  | terminateTracked
  | sweepKillCvlc
  | settleSleep
  | launch
deriving DecidableEq

/-- Start endpoint (lines 1096-1112, 1162-1163, 1226, 1260 ff): when the
status probe sees an existing pipeline, first clear the flag, terminate the
tracked handles, sweep-kill cvlc and sleep one second; then in either case
clear the tracked handles, set the flag, and launch, tracking whatever the
launch produced. -/
def api_decoder_start (s : DecoderState) (launched : Option Pipeline) :
    DecoderState × List StartAction :=
  if status_probe s then
    (⟨true, launched⟩, [.terminateTracked, .sweepKillCvlc, .settleSleep, .launch])
  else
    (⟨true, launched⟩, [.launch])

/-- Stop endpoint (lines 1544-1577): clear the flag, terminate and drop the
tracked handles, sweep-kill every known backend name, and report success iff
the status probe then comes back false. -/
def api_decoder_stop (_s : DecoderState) : DecoderState × Bool :=
  let stopped : DecoderState := ⟨false, none⟩
  (stopped, ! status_probe stopped)

/-- Endpoint call sequence. -/
inductive DecEvent
  | start (launched : Option Pipeline)
  | stop

/-- Run a sequence of start/stop calls against the module state. -/
def run_events (s : DecoderState) : List DecEvent → DecoderState
  | [] => s
  | .start launched :: rest => run_events (api_decoder_start s launched).1 rest
  | .stop :: rest => run_events (api_decoder_stop s).1 rest

/-- Number of pipelines the module tracks. -/
def tracked_pipelines (s : DecoderState) : ℕ :=
  match s.tracked with
  | some _ => 1
  | none => 0

/-- C2 (confirmed): after any sequence of start and stop calls at most one
pipeline is tracked; a start request that finds an existing pipeline
performs the full teardown (terminate tracked handles, sweep kill, settle
sleep) strictly before its launch action, while a start on a clean state
only launches; and a second consecutive stop leaves the state unchanged and
still reports success. -/
theorem start_stop_single_pipeline :
    (∀ (s : DecoderState) (evs : List DecEvent), tracked_pipelines (run_events s evs) ≤ 1) ∧
    (∀ (s : DecoderState) (launched : Option Pipeline),
      (api_decoder_start s launched).2 =
        if status_probe s then
          [.terminateTracked, .sweepKillCvlc, .settleSleep, .launch]
        else [.launch]) ∧
    (∀ s : DecoderState, (api_decoder_stop s).2 = true) ∧
    (∀ s : DecoderState,
      (api_decoder_stop (api_decoder_stop s).1).1 = (api_decoder_stop s).1 ∧
      (api_decoder_stop (api_decoder_stop s).1).2 = true) := by
  refine ⟨fun s evs => ?_, fun s launched => ?_, fun s => rfl, fun s => ⟨rfl, rfl⟩⟩
  · cases h : (run_events s evs).tracked <;> simp [tracked_pipelines, h]
  · unfold api_decoder_start
    by_cases h : status_probe s <;> simp [h]

/-! ## Capture-mode meter fallback (src/app.py, `read_audio_levels`
lines 702-768) -/

/-- Per-thread state of the capture meter loop: the device currently
captured from, the consecutive empty-read and hard-error counters, and the
published level pair. -/
structure MeterState where
  device : String
  emptyCount : ℕ
  errorCount : ℕ
  levels : ℝ × ℝ

/-- Outcome of one arecord capture attempt (lines 712-717, 760-761,
765-768): a decoded chunk (returncode 0, at least 4 bytes); an empty read
(returncode 0 but short data); a hard error (nonzero returncode, which also
counts as empty); a raising capture (the subprocess.run call throws — the
0.8s timeout expiring, a missing binary — caught by the outer handler at
lines 765-768); or a decode failure (the array decode of good data throws,
caught by the inner handler at lines 760-761). -/
inductive CaptureResult
  | good (chunk : List ℤ)
  | emptyRead
  | hardError
  | captureException
  | decodeFailure

/-- Fallback attempt of lines 722-731, run on every failing iteration: once
empty_count ≥ 10 or error_count ≥ 3, ask the device detector for an input
device and switch to it — resetting both counters — when it is nonempty and
differs from the device in use; otherwise keep going unchanged. -/
def attempt_fallback (detected : Option String) (s : MeterState) : MeterState :=
  if 10 ≤ s.emptyCount ∨ 3 ≤ s.errorCount then
    match detected with
    | some d =>
      if d ≠ "" ∧ d ≠ s.device then
        { s with device := d, emptyCount := 0, errorCount := 0 }
      else s
    | none => s
  else s

/-- One iteration of the capture meter loop (lines 711-768): non-raising
failures bump the counters and try the fallback, leaving the published
levels untouched; a raising capture (outer except, lines 765-768) resets
the published levels to zero and bumps error_count WITHOUT running the
fallback check; a decode failure (inner except, lines 760-761) only resets
the published levels; a decoded chunk with fewer than 2 samples only bumps
empty_count (lines 738-741); a full chunk publishes fresh levels and resets
both counters. -/
noncomputable def meter_step (detected : Option String) (r : CaptureResult)
    (s : MeterState) : MeterState :=
  match r with
  | .emptyRead => attempt_fallback detected { s with emptyCount := s.emptyCount + 1 }
  | .hardError =>
    attempt_fallback detected
      { s with emptyCount := s.emptyCount + 1, errorCount := s.errorCount + 1 }
  | .captureException => { s with errorCount := s.errorCount + 1, levels := (0, 0) }
  | .decodeFailure => { s with levels := (0, 0) }
  | .good chunk =>
    if chunk.length < 2 then { s with emptyCount := s.emptyCount + 1 }
    else { s with levels := meter_levels chunk, emptyCount := 0, errorCount := 0 }

/-- Iterate the same capture outcome k times. -/
noncomputable def meter_iterate (detected : Option String) (r : CaptureResult) :
    ℕ → MeterState → MeterState
  | 0, s => s
  | k + 1, s => meter_iterate detected r k (meter_step detected r s)

/-- Run the meter over a list of per-iteration (detection, capture) pairs. -/
noncomputable def meter_run (s : MeterState) :
    List (Option String × CaptureResult) → MeterState
  | [] => s
  | (det, r) :: rest => meter_run (meter_step det r s) rest

/-- Initial state of the capture meter thread: default device (line 702) and
zero levels (line 63). -/
noncomputable def meter_s0 : MeterState := ⟨"hw:1,0", 0, 0, (0, 0)⟩

/-- Half-scale test chunk: every sample 16384, so both channels meter at
16384/32768 = 1/2. -/
def meter_demo_chunk : List ℤ := [16384, 16384, 16384, 16384]

/-- The demo chunk meters at exactly (1/2, 1/2). -/
theorem meter_levels_demo_chunk : meter_levels meter_demo_chunk = (1 / 2, 1 / 2) := by
  have hl : left_samples meter_demo_chunk = [16384, 16384] := by decide
  have hr : right_samples meter_demo_chunk = [16384, 16384] := by decide
  have hconst : ∀ x ∈ [(16384 : ℤ), 16384], x * x = ((16384 : ℕ) : ℤ) * (16384 : ℕ) := by
    decide
  unfold meter_levels
  rw [hl, hr, channel_level_const_abs _ 16384 (by decide) hconst (by norm_num)]
  norm_num

/-- Step equation: a full chunk publishes fresh levels and resets both
counters. -/
theorem meter_step_good_full (det : Option String) (chunk : List ℤ) (dev : String)
    (ec er : ℕ) (lv : ℝ × ℝ) (h : ¬ chunk.length < 2) :
    meter_step det (.good chunk) ⟨dev, ec, er, lv⟩ = ⟨dev, 0, 0, meter_levels chunk⟩ := by
  simp only [meter_step, if_neg h]

/-- Step equation: an empty read below both thresholds only bumps the empty
counter. -/
theorem meter_step_empty_below (det : Option String) (dev : String) (ec er : ℕ)
    (lv : ℝ × ℝ) (h1 : ec + 1 < 10) (h2 : er < 3) :
    meter_step det .emptyRead ⟨dev, ec, er, lv⟩ = ⟨dev, ec + 1, er, lv⟩ := by
  simp only [meter_step, attempt_fallback]
  rw [if_neg (by omega)]

/-- Step equation: a hard error below both thresholds bumps both counters. -/
theorem meter_step_hard_below (det : Option String) (dev : String) (ec er : ℕ)
    (lv : ℝ × ℝ) (h1 : ec + 1 < 10) (h2 : er + 1 < 3) :
    meter_step det .hardError ⟨dev, ec, er, lv⟩ = ⟨dev, ec + 1, er + 1, lv⟩ := by
  simp only [meter_step, attempt_fallback]
  rw [if_neg (by omega)]

/-- Step equation: an empty read that reaches a threshold switches to the
detected device and resets the counters. -/
theorem meter_step_empty_switch (d dev : String) (ec er : ℕ) (lv : ℝ × ℝ)
    (hthr : 10 ≤ ec + 1 ∨ 3 ≤ er) (hne : d ≠ "") (hdev : d ≠ dev) :
    meter_step (some d) .emptyRead ⟨dev, ec, er, lv⟩ = ⟨d, 0, 0, lv⟩ := by
  simp only [meter_step, attempt_fallback]
  rw [if_pos (by omega), if_pos ⟨hne, hdev⟩]

/-- Step equation: a hard error that reaches a threshold switches to the
detected device and resets the counters. -/
theorem meter_step_hard_switch (d dev : String) (ec er : ℕ) (lv : ℝ × ℝ)
    (hthr : 10 ≤ ec + 1 ∨ 3 ≤ er + 1) (hne : d ≠ "") (hdev : d ≠ dev) :
    meter_step (some d) .hardError ⟨dev, ec, er, lv⟩ = ⟨d, 0, 0, lv⟩ := by
  simp only [meter_step, attempt_fallback]
  rw [if_pos (by omega), if_pos ⟨hne, hdev⟩]

/-- C8 counterexample: a successful capture publishes (1/2, 1/2); two hard
errors follow, no fallback switch has happened yet (error_count is only 2),
and the meter still reports (1/2, 1/2) — not zero levels as the claim
requires before the switch. -/
theorem meter_reports_stale_levels_before_switch :
    (meter_run meter_s0
        [(some "hw:2,0", .good meter_demo_chunk),
         (some "hw:2,0", .hardError),
         (some "hw:2,0", .hardError)]).device = "hw:1,0" ∧
    (meter_run meter_s0
        [(some "hw:2,0", .good meter_demo_chunk),
         (some "hw:2,0", .hardError),
         (some "hw:2,0", .hardError)]).levels = (1 / 2, 1 / 2) ∧
    (((1 : ℝ) / 2, (1 : ℝ) / 2) ≠ ((0 : ℝ), (0 : ℝ))) := by
  have hgood : meter_step (some "hw:2,0") (.good meter_demo_chunk) meter_s0 =
      ⟨"hw:1,0", 0, 0, (1 / 2, 1 / 2)⟩ := by
    rw [show meter_s0 = (⟨"hw:1,0", 0, 0, ((0 : ℝ), (0 : ℝ))⟩ : MeterState) from rfl,
      meter_step_good_full _ _ _ _ _ _ (by decide), meter_levels_demo_chunk]
  have h2 : meter_step (some "hw:2,0") .hardError
      (⟨"hw:1,0", 0, 0, (1 / 2, 1 / 2)⟩ : MeterState) = ⟨"hw:1,0", 1, 1, (1 / 2, 1 / 2)⟩ :=
    meter_step_hard_below _ _ _ _ _ (by omega) (by omega)
  have h3 : meter_step (some "hw:2,0") .hardError
      (⟨"hw:1,0", 1, 1, (1 / 2, 1 / 2)⟩ : MeterState) = ⟨"hw:1,0", 2, 2, (1 / 2, 1 / 2)⟩ :=
    meter_step_hard_below _ _ _ _ _ (by omega) (by omega)
  have hrun : meter_run meter_s0
      [(some "hw:2,0", .good meter_demo_chunk),
       (some "hw:2,0", .hardError),
       (some "hw:2,0", .hardError)] = ⟨"hw:1,0", 2, 2, (1 / 2, 1 / 2)⟩ := by
    show meter_run (meter_step (some "hw:2,0") (.good meter_demo_chunk) meter_s0) _ = _
    rw [hgood]
    show meter_run (meter_step (some "hw:2,0") .hardError _) _ = _
    rw [h2]
    show meter_run (meter_step (some "hw:2,0") .hardError _) _ = _
    rw [h3]
    rfl
  refine ⟨by rw [hrun], by rw [hrun], fun h => ?_⟩
  have h1 := congrArg Prod.fst h
  norm_num at h1

/-- Failure iterations leave the published levels untouched. -/
theorem meter_failure_keeps_levels (det : Option String) (s : MeterState) :
    (meter_step det .emptyRead s).levels = s.levels ∧
    (meter_step det .hardError s).levels = s.levels := by
  have hfb : ∀ t : MeterState, (attempt_fallback det t).levels = t.levels := by
    intro t
    unfold attempt_fallback
    repeat' split
    all_goals rfl
  exact ⟨hfb _, hfb _⟩

/-- Applying the step k + 1 times equals stepping once after k times. -/
theorem meter_iterate_succ_last (det : Option String) (r : CaptureResult) :
    ∀ (k : ℕ) (s : MeterState),
      meter_iterate det r (k + 1) s = meter_step det r (meter_iterate det r k s) := by
  intro k
  induction k with
  | zero => intro s; rfl
  | succ n ih =>
    intro s
    show meter_iterate det r (n + 1) (meter_step det r s) = _
    rw [ih (meter_step det r s)]
    rfl

/-- Below the thresholds, k consecutive empty reads only advance the empty
counter. -/
theorem meter_empty_iter (det : Option String) :
    ∀ (k : ℕ) (dev : String) (ec er : ℕ) (lv : ℝ × ℝ), er < 3 → ec + k ≤ 9 →
      meter_iterate det .emptyRead k ⟨dev, ec, er, lv⟩ = ⟨dev, ec + k, er, lv⟩ := by
  intro k
  induction k with
  | zero => intro dev ec er lv _ _; rfl
  | succ n ih =>
    intro dev ec er lv herr hempty
    show meter_iterate det .emptyRead n (meter_step det .emptyRead ⟨dev, ec, er, lv⟩) = _
    rw [meter_step_empty_below det dev ec er lv (by omega) herr,
      ih dev (ec + 1) er lv herr (by omega),
      show ec + 1 + n = ec + (n + 1) from by omega]

/-- Below the thresholds, k consecutive hard errors advance both counters. -/
theorem meter_error_iter (det : Option String) :
    ∀ (k : ℕ) (dev : String) (ec er : ℕ) (lv : ℝ × ℝ), er + k ≤ 2 → ec + k ≤ 9 →
      meter_iterate det .hardError k ⟨dev, ec, er, lv⟩ = ⟨dev, ec + k, er + k, lv⟩ := by
  intro k
  induction k with
  | zero => intro dev ec er lv _ _; rfl
  | succ n ih =>
    intro dev ec er lv herr hempty
    show meter_iterate det .hardError n (meter_step det .hardError ⟨dev, ec, er, lv⟩) = _
    rw [meter_step_hard_below det dev ec er lv (by omega) (by omega),
      ih dev (ec + 1) (er + 1) lv (by omega) (by omega),
      show ec + 1 + n = ec + (n + 1) from by omega,
      show er + 1 + n = er + (n + 1) from by omega]

/-- C8 (corrected): starting from fresh counters, the first 9 consecutive
empty reads (resp. the first 2 hard errors) leave the device AND the
published levels unchanged; at exactly the 10th empty read (resp. the 3rd
nonzero-exit hard error) the meter switches to the detected fallback device,
resetting its counters, before the next capture attempt.  Non-raising
failures keep the last published levels — they do not report zero as
claimed — while a capture attempt that raises (timeout, spawn failure)
resets the levels to zero and counts a hard error WITHOUT running the
fallback check, so three consecutive raising errors reach the threshold
with no switch and the switch is deferred to the next non-raising failed
capture; a decode failure only zeroes the levels. -/
theorem capture_meter_fallback_behaviour (d dev : String) (lv : ℝ × ℝ)
    (hne : d ≠ "") (hdev : d ≠ dev) :
    (∀ k ≤ 9, (meter_iterate (some d) .emptyRead k ⟨dev, 0, 0, lv⟩).device = dev ∧
      (meter_iterate (some d) .emptyRead k ⟨dev, 0, 0, lv⟩).levels = lv) ∧
    (meter_iterate (some d) .emptyRead 10 ⟨dev, 0, 0, lv⟩).device = d ∧
    (meter_iterate (some d) .emptyRead 10 ⟨dev, 0, 0, lv⟩).emptyCount = 0 ∧
    (meter_iterate (some d) .emptyRead 10 ⟨dev, 0, 0, lv⟩).levels = lv ∧
    (∀ k ≤ 2, (meter_iterate (some d) .hardError k ⟨dev, 0, 0, lv⟩).device = dev ∧
      (meter_iterate (some d) .hardError k ⟨dev, 0, 0, lv⟩).levels = lv) ∧
    (meter_iterate (some d) .hardError 3 ⟨dev, 0, 0, lv⟩).device = d ∧
    (meter_iterate (some d) .hardError 3 ⟨dev, 0, 0, lv⟩).levels = lv ∧
    (∀ (det : Option String) (s : MeterState),
      (meter_step det .emptyRead s).levels = s.levels ∧
      (meter_step det .hardError s).levels = s.levels) ∧
    (∀ (det : Option String) (s : MeterState),
      meter_step det .captureException s =
        ⟨s.device, s.emptyCount, s.errorCount + 1, (0, 0)⟩) ∧
    meter_iterate (some d) .captureException 3 ⟨dev, 0, 0, lv⟩ = ⟨dev, 0, 3, (0, 0)⟩ ∧
    meter_step (some d) .hardError ⟨dev, 0, 3, (0, 0)⟩ = ⟨d, 0, 0, (0, 0)⟩ ∧
    meter_step (some d) .emptyRead ⟨dev, 0, 3, (0, 0)⟩ = ⟨d, 0, 0, (0, 0)⟩ ∧
    (∀ (det : Option String) (s : MeterState),
      meter_step det .decodeFailure s =
        ⟨s.device, s.emptyCount, s.errorCount, (0, 0)⟩) := by
  have h9 : meter_iterate (some d) .emptyRead 9 (⟨dev, 0, 0, lv⟩ : MeterState) =
      ⟨dev, 9, 0, lv⟩ := by
    rw [meter_empty_iter (some d) 9 dev 0 0 lv (by omega) (by omega)]
  have h10 : meter_iterate (some d) .emptyRead 10 (⟨dev, 0, 0, lv⟩ : MeterState) =
      ⟨d, 0, 0, lv⟩ := by
    rw [meter_iterate_succ_last, h9, meter_step_empty_switch d dev 9 0 lv (by omega) hne hdev]
  have h2 : meter_iterate (some d) .hardError 2 (⟨dev, 0, 0, lv⟩ : MeterState) =
      ⟨dev, 2, 2, lv⟩ := by
    rw [meter_error_iter (some d) 2 dev 0 0 lv (by omega) (by omega)]
  have h3 : meter_iterate (some d) .hardError 3 (⟨dev, 0, 0, lv⟩ : MeterState) =
      ⟨d, 0, 0, lv⟩ := by
    rw [meter_iterate_succ_last, h2, meter_step_hard_switch d dev 2 2 lv (by omega) hne hdev]
  refine ⟨?_, by rw [h10], by rw [h10], by rw [h10], ?_, by rw [h3], by rw [h3],
    fun det s => meter_failure_keeps_levels det s, fun det s => rfl, rfl,
    meter_step_hard_switch d dev 0 3 (0, 0) (Or.inr (by omega)) hne hdev,
    meter_step_empty_switch d dev 0 3 (0, 0) (Or.inr (by omega)) hne hdev,
    fun det s => rfl⟩
  · intro k hk
    rw [meter_empty_iter (some d) k dev 0 0 lv (by omega) (by omega)]
    exact ⟨rfl, rfl⟩
  · intro k hk
    rw [meter_error_iter (some d) k dev 0 0 lv (by omega) (by omega)]
    exact ⟨rfl, rfl⟩

/-- Witness for the corrected C8 theorem at the initial meter state with
detected fallback device hw:2,0. -/
theorem capture_meter_fallback_witness :
    (meter_iterate (some "hw:2,0") .emptyRead 10 ⟨"hw:1,0", 0, 0, (0, 0)⟩).device = "hw:2,0" ∧
    (meter_iterate (some "hw:2,0") .emptyRead 4 ⟨"hw:1,0", 0, 0, (0, 0)⟩).device = "hw:1,0" ∧
    (meter_iterate (some "hw:2,0") .hardError 3 ⟨"hw:1,0", 0, 0, (0, 0)⟩).device = "hw:2,0" ∧
    meter_iterate (some "hw:2,0") .captureException 3 ⟨"hw:1,0", 0, 0, (0, 0)⟩ =
      ⟨"hw:1,0", 0, 3, (0, 0)⟩ ∧
    meter_step (some "hw:2,0") .hardError ⟨"hw:1,0", 0, 3, (0, 0)⟩ =
      ⟨"hw:2,0", 0, 0, (0, 0)⟩ := by
  have h := capture_meter_fallback_behaviour "hw:2,0" "hw:1,0" (0, 0)
    (by decide) (by decide)
  exact ⟨h.2.1, (h.1 4 (by norm_num)).1, h.2.2.2.2.2.1,
    h.2.2.2.2.2.2.2.2.2.1, h.2.2.2.2.2.2.2.2.2.2.1⟩

end RasEnc
